import Mathlib

/-!
Verification of the penpal-ai-notify-service against its specification.

The development shallowly embeds the core components:
* `ApiKeyGuard` (src/unnamed/part_003, `api-key.guard.ts`): header-based
  API-key authentication.
* `EmailService` (src/src/services/email.service.ts): the email dispatcher
  with its test mode, template compilation and merge-record construction.
* `TemplateService` (the Template Store, `src/utils/template.service.ts`,
  whose source appears as the third concatenated document inside
  `src/src/app.service.spec.ts`): the template cache with `loadTemplates`,
  `clearCache` and `getCacheStatus`.

Effectful steps (handlebars compilation, SMTP send, template-source reads)
are supplied by environments of fallible oracles; each operation
additionally returns the list of effect events it performed, so that "the
transport was never invoked" and "the source was not read again" are
provable statements.
-/

namespace NotifyService

/-! ## ApiKeyGuard (api-key.guard.ts) -/

/-- The value of an Express header: `request.headers[k]` has TypeScript type
`string | string[] | undefined`; the `Option` wrapping models `undefined`. -/
inductive HeaderVal : Type
  | str (s : String)
  | arr (l : List String)
  deriving DecidableEq, Repr

/-- The part of an Express `Request` the guard reads: the `authorization`
header (always a single string when present), the `x-api-key` header, and
the client IP used for logging. -/
structure Request : Type where
  authorization : Option String
  xApiKey : Option HeaderVal
  ip : String
  deriving DecidableEq, Repr

/-- JavaScript `s.startsWith(p)`, computed on the character lists so that the
kernel can evaluate concrete instances. -/
def jsStartsWith (s p : String) : Bool :=
  List.isPrefixOf p.data s.data

/-- JavaScript `s.substring(n)` for the call sites of this code base: drop
the first `n` characters (the dropped prefix, `"Bearer "`, is ASCII, where
UTF-16 code units and characters coincide). -/
def jsSubstringFrom (s : String) (n : Nat) : String :=
  String.mk (s.data.drop n)

/-- JavaScript `s.toUpperCase()`, character by character. -/
def jsToUpperCase (s : String) : String :=
  String.mk (s.data.map Char.toUpper)

/-- The `x-api-key` branch of `ApiKeyGuard.extractApiKey`: the value counts
only when it is a single string (`typeof apiKeyHeader === "string"`); an
array of values, like an absent header, yields `null`. -/
def extractXApiKey (request : Request) : Option String :=
  match request.xApiKey with
  | some (HeaderVal.str s) => some s
  | _ => none

/-- Models `ApiKeyGuard.extractApiKey`: if the `authorization` header is present and
starts with `"Bearer "`, the rest of it is the candidate (`substring(7)`);
otherwise fall through to the `x-api-key` header. An empty `authorization`
string is JavaScript-falsy and also does not start with `"Bearer "`, so both
readings fall through identically. -/
def extractApiKey (request : Request) : Option String :=
  match request.authorization with
  | some authHeader =>
    if jsStartsWith authHeader "Bearer " then
      some (jsSubstringFrom authHeader 7)
    else extractXApiKey request
  | none => extractXApiKey request

/-- The guard's configured secret:
`configService.get("NOTIFY_SERVICE_API_KEY") || ""` maps an absent or empty
configuration value to the empty string. -/
def expectedApiKeyOfConfig (cfg : Option String) : String :=
  cfg.getD ""

/-- Models `ApiKeyGuard.canActivate`. `Except.error m` models
`throw new UnauthorizedException(m)`; the function otherwise returns `true`.
`(extractApiKey request).getD "" = ""` is exactly the JavaScript falsiness
test `!apiKey` on a `string | null` (null or empty string). -/
def canActivate (expectedApiKey : String) (request : Request) :
    Except String Bool :=
  let apiKey := (extractApiKey request).getD ""
  if apiKey = "" ∨ expectedApiKey = "" then
    Except.error "Invalid API key"
  else if apiKey ≠ expectedApiKey then
    Except.error "Invalid API key"
  else
    Except.ok true

/-! ## EmailService (email.service.ts)

The nested `email` configuration record mirrors `email.config.ts`
(src/unnamed/part_001). -/

/-- The `email.auth` configuration: SMTP credentials. -/
structure EmailAuthConfig : Type where
  user : String
  pass : String
  deriving DecidableEq, Repr

/-- The `email.from` configuration (named `from_` below because `from` is a
reserved word in Lean): sender display name and address. -/
structure EmailFromConfig : Type where
  name : String
  address : String
  deriving DecidableEq, Repr

/-- The `email.templates` configuration. -/
structure EmailTemplatesConfig : Type where
  baseUrl : String
  deriving DecidableEq, Repr

/-- The `email` configuration record consumed by `EmailService`. -/
structure EmailConfig : Type where
  host : String
  port : Nat
  secure : Bool
  auth : EmailAuthConfig
  from_ : EmailFromConfig
  templates : EmailTemplatesConfig
  deriving DecidableEq, Repr

/-- The `WelcomeEmailData` record from email.service.ts. -/
structure WelcomeEmailData : Type where
  email : String
  firstName : String
  lastName : String
  provider : String
  deriving DecidableEq, Repr

/-- The `plan` enumeration ("monthly" or "yearly"). -/
inductive Plan : Type
  | monthly
  | yearly
  deriving DecidableEq, Repr

/-- The `status` enumeration ("trial" or "active"). -/
inductive SubscriptionStatus : Type
  | trial
  | active
  deriving DecidableEq, Repr

/-- A JavaScript `Date`, abstracted by the only operation the service
applies to it: `toLocaleDateString` with the fr-FR locale. -/
structure JsDate : Type where
  localeDateStringFr : String
  deriving DecidableEq, Repr

/-- The `SubscriptionConfirmationEmailData` record from email.service.ts. `amount` is
an integer number of minor currency units (cents). -/
structure SubscriptionConfirmationEmailData : Type where
  email : String
  firstName : String
  lastName : String
  plan : Plan
  status : SubscriptionStatus
  trialEnd : Option JsDate
  nextBillingDate : Option JsDate
  amount : Option Nat
  currency : Option String
  deriving DecidableEq, Repr

/-- A JavaScript value that the expression `providers[provider] || provider`
can produce: either a string, or a member inherited from
`Object.prototype` through the prototype chain (a truthy function — or,
for `__proto__`, the prototype object itself), identified by its key. -/
inductive ProviderDisplay : Type
  | str (s : String)
  | protoMember (key : String)
  deriving DecidableEq, Repr

/-- Own property names of `Object.prototype`: a bracket lookup on a plain
object literal that misses every own key reaches these through the
prototype chain, and each holds a truthy non-string value. -/
def objectPrototypeKeys : List String :=
  ["constructor", "hasOwnProperty", "isPrototypeOf", "propertyIsEnumerable",
   "toLocaleString", "toString", "valueOf", "__defineGetter__",
   "__defineSetter__", "__lookupGetter__", "__lookupSetter__", "__proto__"]

/-- Models `EmailService.getProviderDisplayName` (the identical private
method also appears in template.service.ts): `providers[provider] ||
provider` on a plain object literal. An own key yields its display string;
otherwise the bracket lookup traverses the prototype chain, so a key
inherited from `Object.prototype` yields that truthy member, which the
`||` keeps; only a provider string hitting neither falls back to the input
unchanged. -/
def getProviderDisplayName (provider : String) : ProviderDisplay :=
  if provider = "google" then ProviderDisplay.str "Google"
  else if provider = "facebook" then ProviderDisplay.str "Facebook"
  else if provider = "apple" then ProviderDisplay.str "Apple"
  else if provider = "github" then ProviderDisplay.str "GitHub"
  else if provider ∈ objectPrototypeKeys then ProviderDisplay.protoMember provider
  else ProviderDisplay.str provider

/-- The merge record built by `sendWelcomeEmail` (its `templateData`
literal); `year` abstracts `new Date().getFullYear()`. -/
structure WelcomeTemplateData : Type where
  firstName : String
  lastName : String
  fullName : String
  provider : ProviderDisplay
  baseUrl : String
  year : Nat
  deriving DecidableEq, Repr

/-- Construction of `templateData` inside `sendWelcomeEmail`. -/
def welcomeTemplateData (cfg : EmailConfig) (year : Nat)
    (userData : WelcomeEmailData) : WelcomeTemplateData :=
  { firstName := userData.firstName
    lastName := userData.lastName
    fullName := userData.firstName ++ " " ++ userData.lastName
    provider := getProviderDisplayName userData.provider
    baseUrl := cfg.templates.baseUrl
    year := year }

/-- Models `(n / 100).toFixed(2)` for a non-negative integer number of cents `n`:
the integer part, a dot, and the two-digit cent part. -/
def toFixed2OfCents (n : Nat) : String :=
  toString (n / 100) ++ "." ++
    (if n % 100 < 10 then "0" else "") ++ toString (n % 100)

/-- The merge record built by `sendSubscriptionConfirmationEmail` (its
`templateData` literal). Fields that the source sets to `null` are
`Option`s holding `none`. -/
structure SubscriptionTemplateData : Type where
  firstName : String
  lastName : String
  fullName : String
  plan : String
  planType : Plan
  status : SubscriptionStatus
  isTrialActive : Bool
  trialEnd : Option String
  nextBillingDate : Option String
  amount : Option String
  currency : String
  baseUrl : String
  year : Nat
  deriving DecidableEq, Repr

/-- Construction of `templateData` inside
`sendSubscriptionConfirmationEmail`. `subscriptionData.amount ? _ : null`
tests JavaScript truthiness of a number, which is false for `0` as well as
for an absent value; the currency expression (optional-chained upper-case
with a logical-or fallback)
falls back to `"EUR"` when `currency` is absent or upper-cases to the empty
string. -/
def subscriptionTemplateData (cfg : EmailConfig) (year : Nat)
    (subscriptionData : SubscriptionConfirmationEmailData) :
    SubscriptionTemplateData :=
  { firstName := subscriptionData.firstName
    lastName := subscriptionData.lastName
    fullName := subscriptionData.firstName ++ " " ++ subscriptionData.lastName
    plan := match subscriptionData.plan with
      | Plan.monthly => "Mensuel"
      | Plan.yearly => "Annuel"
    planType := subscriptionData.plan
    status := subscriptionData.status
    isTrialActive := subscriptionData.status == SubscriptionStatus.trial
    trialEnd := subscriptionData.trialEnd.map JsDate.localeDateStringFr
    nextBillingDate :=
      subscriptionData.nextBillingDate.map JsDate.localeDateStringFr
    amount := match subscriptionData.amount with
      | some n => if n = 0 then none else some (toFixed2OfCents n)
      | none => none
    currency :=
      let u := jsToUpperCase ((subscriptionData.currency).getD "")
      if u = "" then "EUR" else u
    baseUrl := cfg.templates.baseUrl
    year := year }

/-- The fixed welcome subject line. -/
def welcomeSubject : String := "Bienvenue dans Penpal AI ! 🎉"

/-- The two-way subject branch of `sendSubscriptionConfirmationEmail` on
whether `status` equals "trial". -/
def subscriptionSubject (status : SubscriptionStatus) : String :=
  match status with
  | SubscriptionStatus.trial =>
      "Votre période d\u0027essai Penpal AI a commencé ! 🎉"
  | SubscriptionStatus.active =>
      "Confirmation de votre abonnement Penpal AI 🎉"

/-- The four inline template sources of email.service.ts, by name. -/
inductive TemplateName : Type
  | welcomeHtml
  | welcomeText
  | subscriptionHtml
  | subscriptionText
  deriving DecidableEq, Repr

/-- Observable effects of a dispatcher call: a `handlebars.compile` of one
of the inline template sources, or a `transporter.sendMail` to a
recipient. -/
inductive EmailEvent : Type
  | compileTemplate (t : TemplateName)
  | sendMail (to_ : String)
  deriving DecidableEq, Repr

/-- The `mailOptions` literal passed to `transporter.sendMail`. -/
structure MailOptions : Type where
  fromName : String
  fromAddress : String
  to_ : String
  subject : String
  text : String
  html : String
  deriving DecidableEq, Repr

/-- Environment of fallible external operations used by the dispatcher:
`handlebars.compile` applied to the named inline source (yielding a
renderable function over the respective merge record, or throwing), and
`transporter.sendMail` (yielding a message id, or throwing). -/
structure SendEnv : Type where
  compileWelcome : TemplateName → Except String (WelcomeTemplateData → String)
  compileSubscription :
    TemplateName → Except String (SubscriptionTemplateData → String)
  sendMail : MailOptions → Except String String

/-- The `try`-block body of `EmailService.sendWelcomeEmail`: test mode when
either SMTP credential is JavaScript-falsy (empty), else compile both
templates, build the mail and send it. Errors propagate; the event list
records what ran. -/
def sendWelcomeEmailBody (cfg : EmailConfig) (env : SendEnv) (year : Nat)
    (userData : WelcomeEmailData) : Except String Bool × List EmailEvent :=
  if cfg.auth.user = "" ∨ cfg.auth.pass = "" then
    (Except.ok true, [])
  else
    match env.compileWelcome TemplateName.welcomeHtml with
    | Except.error e =>
        (Except.error e, [EmailEvent.compileTemplate TemplateName.welcomeHtml])
    | Except.ok compiledHtml =>
      match env.compileWelcome TemplateName.welcomeText with
      | Except.error e =>
          (Except.error e,
            [EmailEvent.compileTemplate TemplateName.welcomeHtml,
             EmailEvent.compileTemplate TemplateName.welcomeText])
      | Except.ok compiledText =>
        let templateData := welcomeTemplateData cfg year userData
        let mailOptions : MailOptions :=
          { fromName := cfg.from_.name
            fromAddress := cfg.from_.address
            to_ := userData.email
            subject := welcomeSubject
            text := compiledText templateData
            html := compiledHtml templateData }
        match env.sendMail mailOptions with
        | Except.error e =>
            (Except.error e,
              [EmailEvent.compileTemplate TemplateName.welcomeHtml,
               EmailEvent.compileTemplate TemplateName.welcomeText,
               EmailEvent.sendMail userData.email])
        | Except.ok _info =>
            (Except.ok true,
              [EmailEvent.compileTemplate TemplateName.welcomeHtml,
               EmailEvent.compileTemplate TemplateName.welcomeText,
               EmailEvent.sendMail userData.email])

/-- Models `EmailService.sendWelcomeEmail`: the body wrapped in the `try`/`catch`
that converts any error into a `false` return. -/
def sendWelcomeEmail (cfg : EmailConfig) (env : SendEnv) (year : Nat)
    (userData : WelcomeEmailData) : Except String Bool × List EmailEvent :=
  let r := sendWelcomeEmailBody cfg env year userData
  match r.1 with
  | Except.error _ => (Except.ok false, r.2)
  | Except.ok b => (Except.ok b, r.2)

/-- The `try`-block body of
`EmailService.sendSubscriptionConfirmationEmail`, analogous to the welcome
variant. -/
def sendSubscriptionConfirmationEmailBody (cfg : EmailConfig) (env : SendEnv)
    (year : Nat) (subscriptionData : SubscriptionConfirmationEmailData) :
    Except String Bool × List EmailEvent :=
  if cfg.auth.user = "" ∨ cfg.auth.pass = "" then
    (Except.ok true, [])
  else
    match env.compileSubscription TemplateName.subscriptionHtml with
    | Except.error e =>
        (Except.error e,
          [EmailEvent.compileTemplate TemplateName.subscriptionHtml])
    | Except.ok compiledHtml =>
      match env.compileSubscription TemplateName.subscriptionText with
      | Except.error e =>
          (Except.error e,
            [EmailEvent.compileTemplate TemplateName.subscriptionHtml,
             EmailEvent.compileTemplate TemplateName.subscriptionText])
      | Except.ok compiledText =>
        let templateData := subscriptionTemplateData cfg year subscriptionData
        let mailOptions : MailOptions :=
          { fromName := cfg.from_.name
            fromAddress := cfg.from_.address
            to_ := subscriptionData.email
            subject := subscriptionSubject subscriptionData.status
            text := compiledText templateData
            html := compiledHtml templateData }
        match env.sendMail mailOptions with
        | Except.error e =>
            (Except.error e,
              [EmailEvent.compileTemplate TemplateName.subscriptionHtml,
               EmailEvent.compileTemplate TemplateName.subscriptionText,
               EmailEvent.sendMail subscriptionData.email])
        | Except.ok _info =>
            (Except.ok true,
              [EmailEvent.compileTemplate TemplateName.subscriptionHtml,
               EmailEvent.compileTemplate TemplateName.subscriptionText,
               EmailEvent.sendMail subscriptionData.email])

/-- Models `EmailService.sendSubscriptionConfirmationEmail`: body wrapped in the
error-to-`false` `try`/`catch`. -/
def sendSubscriptionConfirmationEmail (cfg : EmailConfig) (env : SendEnv)
    (year : Nat) (subscriptionData : SubscriptionConfirmationEmailData) :
    Except String Bool × List EmailEvent :=
  let r := sendSubscriptionConfirmationEmailBody cfg env year subscriptionData
  match r.1 with
  | Except.error _ => (Except.ok false, r.2)
  | Except.ok b => (Except.ok b, r.2)

/-! ## TemplateService (template.service.ts)

The source of `src/utils/template.service.ts` is the third concatenated
document inside `src/src/app.service.spec.ts` (after the separator
markers); the definitions below embed that source. -/

/-- A compiled handlebars delegate (`HandlebarsTemplateDelegate`),
abstracted as an opaque function from merge data to rendered output; the
caching claims never inspect the data, so it is represented by a string. -/
def HandlebarsDelegate : Type := String → String

/-- A `templateCache` entry: the `{ html, text }` pair of compiled
delegates stored per template name. -/
structure CompiledTemplates : Type where
  html : HandlebarsDelegate
  text : HandlebarsDelegate

/-- The `TemplateService` state: its `templateCache` Map from template
names to compiled pairs, newest entry first (`set` is only reached on a
cache miss, so insertion order determines the association list). -/
structure TemplateService : Type where
  templateCache : List (String × CompiledTemplates)

/-- Environment of fallible external operations used by `loadTemplates`:
`fs.promises.readFile(path, "utf-8")` and `handlebars.compile(source)`. -/
structure TemplateEnv : Type where
  readFile : String → Except String String
  compile : String → Except String HandlebarsDelegate

/-- Observable effects of a `loadTemplates` call: a file read of a
template source path, or a handlebars compilation of read content. -/
inductive TemplateEvent : Type
  | readFile (path : String)
  | compileSource (source : String)
  deriving DecidableEq, Repr

/-- Models `path.join(process.cwd(), "src", "templates", templateName)`
followed by `path.join(templateDir, templateName + ".html.hbs")`. -/
def templateHtmlPath (cwd templateName : String) : String :=
  cwd ++ "/src/templates/" ++ templateName ++ "/" ++ templateName ++
    ".html.hbs"

/-- The analogous `templateName + ".text.hbs"` path. -/
def templateTextPath (cwd templateName : String) : String :=
  cwd ++ "/src/templates/" ++ templateName ++ "/" ++ templateName ++
    ".text.hbs"

/-- Models `TemplateService.loadTemplates`: on a cache hit (`has` then
`get` on the Map) return the cached pair with no file read or compilation;
on a miss read the HTML source, then the text source, compile both in
order, `set` the pair into the cache and return it. Any failure inside the
`try` is rethrown as `Template loading failed: <templateName>`. The event
list records the reads and compilations actually performed. -/
def loadTemplates (service : TemplateService) (env : TemplateEnv)
    (cwd : String) (templateName : String) :
    Except String CompiledTemplates × TemplateService × List TemplateEvent :=
  match service.templateCache.lookup templateName with
  | some templates => (Except.ok templates, service, [])
  | none =>
    match env.readFile (templateHtmlPath cwd templateName) with
    | Except.error _ =>
        (Except.error ("Template loading failed: " ++ templateName), service,
          [TemplateEvent.readFile (templateHtmlPath cwd templateName)])
    | Except.ok htmlContent =>
      match env.readFile (templateTextPath cwd templateName) with
      | Except.error _ =>
          (Except.error ("Template loading failed: " ++ templateName),
            service,
            [TemplateEvent.readFile (templateHtmlPath cwd templateName),
             TemplateEvent.readFile (templateTextPath cwd templateName)])
      | Except.ok textContent =>
        match env.compile htmlContent with
        | Except.error _ =>
            (Except.error ("Template loading failed: " ++ templateName),
              service,
              [TemplateEvent.readFile (templateHtmlPath cwd templateName),
               TemplateEvent.readFile (templateTextPath cwd templateName),
               TemplateEvent.compileSource htmlContent])
        | Except.ok htmlDelegate =>
          match env.compile textContent with
          | Except.error _ =>
              (Except.error ("Template loading failed: " ++ templateName),
                service,
                [TemplateEvent.readFile (templateHtmlPath cwd templateName),
                 TemplateEvent.readFile (templateTextPath cwd templateName),
                 TemplateEvent.compileSource htmlContent,
                 TemplateEvent.compileSource textContent])
          | Except.ok textDelegate =>
              (Except.ok ⟨htmlDelegate, textDelegate⟩,
                ⟨(templateName, ⟨htmlDelegate, textDelegate⟩) ::
                  service.templateCache⟩,
                [TemplateEvent.readFile (templateHtmlPath cwd templateName),
                 TemplateEvent.readFile (templateTextPath cwd templateName),
                 TemplateEvent.compileSource htmlContent,
                 TemplateEvent.compileSource textContent])

/-- Models `TemplateService.clearCache`: `templateCache.clear()`. -/
def clearCache (_service : TemplateService) : TemplateService :=
  ⟨[]⟩

/-- The return shape of `getCacheStatus`: `{ size, keys }`. -/
structure CacheStatus : Type where
  size : Nat
  keys : List String
  deriving DecidableEq, Repr

/-- Models `TemplateService.getCacheStatus`: the Map size and its keys
(in the association-list order of the model). -/
def getCacheStatus (service : TemplateService) : CacheStatus :=
  ⟨service.templateCache.length, service.templateCache.map Prod.fst⟩

/-- Runs a sequence of `loadTemplates` requests (each with its own
environment, working directory and template name) against a service,
keeping only the final cache state; used to speak about "every subsequent
call" after a first load. -/
def runLoads (service : TemplateService)
    (reqs : List (TemplateEnv × String × String)) : TemplateService :=
  reqs.foldl (fun st r => (loadTemplates st r.1 r.2.1 r.2.2).2.1) service

/-! ## Guard claims -/

/-- C1: when the extracted credential candidate is a non-empty string and
the configured secret is non-empty, `canActivate` returns `true` exactly
when the candidate equals the secret byte-for-byte (String equality is
case-sensitive), and otherwise raises the `"Invalid API key"` error. -/
theorem canActivate_ok_iff_match (secret : String) (request : Request)
    (k : String) (hk : extractApiKey request = some k) (hne : k ≠ "")
    (hs : secret ≠ "") :
    (canActivate secret request = Except.ok true ↔ k = secret) ∧
      (k ≠ secret →
        canActivate secret request = Except.error "Invalid API key") := by
  unfold canActivate
  rw [hk]
  simp only [Option.getD_some]
  constructor
  · constructor
    · intro h
      by_contra hne2
      simp [hne, hs, hne2] at h
    · intro h
      simp [hne, hs, h]
  · intro hne2
    simp [hne, hs, hne2]

/-- C1 witness: with configured secret `"K"`, the candidate `"k"` extracted
from `Authorization: Bearer k` is rejected (case-sensitive comparison), as
the claim's concrete instance demands. -/
theorem canActivate_ok_iff_match_w :
    canActivate "K" ⟨some "Bearer k", none, "1.2.3.4"⟩ =
      Except.error "Invalid API key" :=
  (canActivate_ok_iff_match "K" ⟨some "Bearer k", none, "1.2.3.4"⟩ "k"
    (by decide) (by decide) (by decide)).2 (by decide)

/-- C2: with an empty configured secret — in particular the secret derived
from an absent or empty configuration value — every request is rejected with
the `"Invalid API key"` error, whatever its headers carry (fail-closed). -/
theorem canActivate_empty_secret_rejects (request : Request) :
    canActivate "" request = Except.error "Invalid API key" ∧
      expectedApiKeyOfConfig none = "" ∧
      expectedApiKeyOfConfig (some "") = "" := by
  refine ⟨?_, rfl, rfl⟩
  unfold canActivate
  simp

/-- C3: credential-extraction order. A well-formed `Authorization: Bearer x`
header yields its token and ignores `x-api-key` entirely; a malformed
`Authorization` header, or an absent one, falls through to `x-api-key`; the
`x-api-key` header yields a candidate only when its value is a single
string, an array of values (or absence) being treated as no candidate. -/
theorem extractApiKey_order (request : Request) :
    (∀ a, request.authorization = some a → jsStartsWith a "Bearer " = true →
      extractApiKey request = some (jsSubstringFrom a 7)) ∧
    (∀ a, request.authorization = some a → jsStartsWith a "Bearer " = false →
      extractApiKey request = extractXApiKey request) ∧
    (request.authorization = none →
      extractApiKey request = extractXApiKey request) ∧
    (∀ s, request.xApiKey = some (HeaderVal.str s) →
      extractXApiKey request = some s) ∧
    (∀ l, request.xApiKey = some (HeaderVal.arr l) →
      extractXApiKey request = none) ∧
    (request.xApiKey = none → extractXApiKey request = none) := by
  refine ⟨?_, ?_, ?_, ?_, ?_, ?_⟩
  · intro a ha hb
    unfold extractApiKey
    rw [ha]
    simp [hb]
  · intro a ha hb
    unfold extractApiKey
    rw [ha]
    simp [hb]
  · intro ha
    unfold extractApiKey
    rw [ha]
  · intro s hx
    unfold extractXApiKey
    rw [hx]
  · intro l hx
    unfold extractXApiKey
    rw [hx]
  · intro hx
    unfold extractXApiKey
    rw [hx]

/-- C3 witness: a non-Bearer `Authorization` header does not short-circuit;
the guard falls through and the single-string `x-api-key` value becomes the
candidate. -/
theorem extractApiKey_order_w :
    extractApiKey ⟨some "Basic abc", some (HeaderVal.str "K"), "ip"⟩ =
      some "K" := by
  have h := extractApiKey_order
    ⟨some "Basic abc", some (HeaderVal.str "K"), "ip"⟩
  rw [h.2.1 "Basic abc" rfl (by decide)]
  exact h.2.2.2.1 "K" rfl

/-! ## Dispatcher claims -/

/-- C4: the dispatcher operations never let an error escape their boundary:
for every configuration, environment (however its compile and send oracles
fail) and input, `sendWelcomeEmail` and `sendSubscriptionConfirmationEmail`
return a boolean (`Except.ok`), never an error. -/
theorem send_operations_never_throw (cfg : EmailConfig) (env : SendEnv)
    (year : Nat) (userData : WelcomeEmailData)
    (subscriptionData : SubscriptionConfirmationEmailData) :
    (sendWelcomeEmail cfg env year userData).1.isOk = true ∧
      (sendSubscriptionConfirmationEmail cfg env year
        subscriptionData).1.isOk = true := by
  constructor
  · unfold sendWelcomeEmail
    cases h : (sendWelcomeEmailBody cfg env year userData).1 <;>
      simp [h, Except.isOk, Except.toBool]
  · unfold sendSubscriptionConfirmationEmail
    cases h :
        (sendSubscriptionConfirmationEmailBody cfg env year
          subscriptionData).1 <;>
      simp [h, Except.isOk, Except.toBool]

/-- C5: with empty transport credentials the dispatcher is in test mode:
both operations return `true` and perform no effects at all — in
particular the transport send is never invoked. -/
theorem test_mode_no_transport (cfg : EmailConfig) (env : SendEnv)
    (year : Nat) (userData : WelcomeEmailData)
    (subscriptionData : SubscriptionConfirmationEmailData)
    (hu : cfg.auth.user = "") (hp : cfg.auth.pass = "") :
    sendWelcomeEmail cfg env year userData = (Except.ok true, []) ∧
      sendSubscriptionConfirmationEmail cfg env year subscriptionData =
        (Except.ok true, []) := by
  constructor
  · simp [sendWelcomeEmail, sendWelcomeEmailBody, hu]
  · simp [sendSubscriptionConfirmationEmail,
      sendSubscriptionConfirmationEmailBody, hp]

/-- C5 witness: a concrete configuration with both credentials empty, an
environment whose every oracle fails, and concrete payloads: both sends
report success with an empty event trace. -/
theorem test_mode_no_transport_w :
    sendWelcomeEmail
      ⟨"smtp.gmail.com", 587, false, ⟨"", ""⟩,
        ⟨"Penpal AI", "noreply@penpal-ai.com"⟩, ⟨"http://localhost:3000"⟩⟩
      ⟨fun _ => Except.error "no compiler",
        fun _ => Except.error "no compiler",
        fun _ => Except.error "no transport"⟩
      2025 ⟨"a@b.com", "J", "D", "google"⟩ = (Except.ok true, []) :=
  (test_mode_no_transport _ _ 2025 ⟨"a@b.com", "J", "D", "google"⟩
    ⟨"a@b.com", "J", "D", Plan.monthly, SubscriptionStatus.trial,
      none, none, none, none⟩ rfl rfl).1

/-- C10: test mode is entered when either SMTP credential component is
empty, not only when both are: if the user or the password is empty, both
operations return `true` with no transport invocation. -/
theorem test_mode_either_credential (cfg : EmailConfig) (env : SendEnv)
    (year : Nat) (userData : WelcomeEmailData)
    (subscriptionData : SubscriptionConfirmationEmailData)
    (h : cfg.auth.user = "" ∨ cfg.auth.pass = "") :
    sendWelcomeEmail cfg env year userData = (Except.ok true, []) ∧
      sendSubscriptionConfirmationEmail cfg env year subscriptionData =
        (Except.ok true, []) := by
  cases h with
  | inl hu =>
    constructor
    · simp [sendWelcomeEmail, sendWelcomeEmailBody, hu]
    · simp [sendSubscriptionConfirmationEmail,
        sendSubscriptionConfirmationEmailBody, hu]
  | inr hp =>
    constructor
    · simp [sendWelcomeEmail, sendWelcomeEmailBody, hp]
    · simp [sendSubscriptionConfirmationEmail,
        sendSubscriptionConfirmationEmailBody, hp]

/-- C10 witness: non-empty user, empty password — still test mode: success
with no transport invocation. -/
theorem test_mode_either_credential_w :
    sendWelcomeEmail
      ⟨"smtp.gmail.com", 587, false, ⟨"someone@gmail.com", ""⟩,
        ⟨"Penpal AI", "noreply@penpal-ai.com"⟩, ⟨"http://localhost:3000"⟩⟩
      ⟨fun _ => Except.error "no compiler",
        fun _ => Except.error "no compiler",
        fun _ => Except.error "no transport"⟩
      2025 ⟨"a@b.com", "J", "D", "google"⟩ = (Except.ok true, []) :=
  (test_mode_either_credential _ _ 2025 ⟨"a@b.com", "J", "D", "google"⟩
    ⟨"a@b.com", "J", "D", Plan.monthly, SubscriptionStatus.trial,
      none, none, none, none⟩ (Or.inr rfl)).1

/-- C9 counterexample: at a concrete input where template compilation
fails (non-empty credentials, compile oracle throwing), `sendWelcomeEmail`
returns `Except.ok false` — the error is caught inside the operation and
does not propagate to the caller, contrary to the claim. -/
theorem template_error_not_propagated_cex :
    sendWelcomeEmail
      ⟨"smtp.example.com", 587, false, ⟨"user", "pass"⟩,
        ⟨"Penpal AI", "noreply@penpal-ai.com"⟩, ⟨"http://localhost:3000"⟩⟩
      ⟨fun _ => Except.error "compile failed",
        fun _ => Except.error "compile failed",
        fun _ => Except.ok "message-id"⟩
      2025 ⟨"a@b.com", "J", "D", "google"⟩ =
      (Except.ok false,
        [EmailEvent.compileTemplate TemplateName.welcomeHtml]) := by
  rfl

/-- C9 amended: a template compilation error inside a send operation is
caught like any other failure and converted to a `false` return; it never
propagates to the caller. -/
theorem template_error_caught (cfg : EmailConfig) (env : SendEnv)
    (year : Nat) (userData : WelcomeEmailData)
    (subscriptionData : SubscriptionConfirmationEmailData) (e e2 : String)
    (hu : cfg.auth.user ≠ "") (hp : cfg.auth.pass ≠ "")
    (hc : env.compileWelcome TemplateName.welcomeHtml = Except.error e)
    (hcs : env.compileSubscription TemplateName.subscriptionHtml =
      Except.error e2) :
    sendWelcomeEmail cfg env year userData =
      (Except.ok false,
        [EmailEvent.compileTemplate TemplateName.welcomeHtml]) ∧
      sendSubscriptionConfirmationEmail cfg env year subscriptionData =
        (Except.ok false,
          [EmailEvent.compileTemplate TemplateName.subscriptionHtml]) := by
  constructor
  · simp [sendWelcomeEmail, sendWelcomeEmailBody, hu, hp, hc]
  · simp [sendSubscriptionConfirmationEmail,
      sendSubscriptionConfirmationEmailBody, hu, hp, hcs]

/-- C9 amended witness: concrete failing compile oracles, concrete
payloads: both operations return `false`, no error escapes. -/
theorem template_error_caught_w :
    sendSubscriptionConfirmationEmail
      ⟨"smtp.example.com", 587, false, ⟨"user", "pass"⟩,
        ⟨"Penpal AI", "noreply@penpal-ai.com"⟩, ⟨"http://localhost:3000"⟩⟩
      ⟨fun _ => Except.error "bad html",
        fun _ => Except.error "bad subscription html",
        fun _ => Except.ok "message-id"⟩
      2025
      ⟨"a@b.com", "J", "D", Plan.yearly, SubscriptionStatus.active,
        none, none, some 999, some "eur"⟩ =
      (Except.ok false,
        [EmailEvent.compileTemplate TemplateName.subscriptionHtml]) :=
  (template_error_caught _ _ 2025 ⟨"a@b.com", "J", "D", "google"⟩
    ⟨"a@b.com", "J", "D", Plan.yearly, SubscriptionStatus.active,
      none, none, some 999, some "eur"⟩
    "bad html" "bad subscription html"
    (by decide) (by decide) rfl rfl).2

/-! ## Merge-record claims -/

/-- C7 counterexample: `amount = 0` is a present value, yet the merge field
is `none` rather than the formatted `"0.00"` (the JavaScript truthiness
test on a number is false at `0`); and `currency = ""` is a present value,
yet the merge field is the `"EUR"` fallback rather than the upper-cased
supplied currency (the empty string is falsy after upper-casing). -/
theorem amount_currency_cex :
    (subscriptionTemplateData
      ⟨"smtp.example.com", 587, false, ⟨"user", "pass"⟩,
        ⟨"Penpal AI", "noreply@penpal-ai.com"⟩, ⟨"http://localhost:3000"⟩⟩
      2025
      ⟨"a@b.com", "J", "D", Plan.monthly, SubscriptionStatus.active,
        none, none, some 0, some ""⟩).amount = none ∧
    toFixed2OfCents 0 = "0.00" ∧
    (subscriptionTemplateData
      ⟨"smtp.example.com", 587, false, ⟨"user", "pass"⟩,
        ⟨"Penpal AI", "noreply@penpal-ai.com"⟩, ⟨"http://localhost:3000"⟩⟩
      2025
      ⟨"a@b.com", "J", "D", Plan.monthly, SubscriptionStatus.active,
        none, none, some 0, some ""⟩).currency = "EUR" ∧
    jsToUpperCase "" = "" ∧ ("EUR" : String) ≠ "" := by
  refine ⟨rfl, by decide, rfl, rfl, by decide⟩

/-- C7 amended: if `amount` is present and non-zero, it is divided by 100
and formatted to two decimal places as a string (999 becomes `"9.99"`);
when absent or zero the field is `none`, never `"0.00"` (and `"NaN"` is
unrepresentable since the amount is an integer); the `currency` field is
the supplied currency upper-cased when that is non-empty, and falls back
to `"EUR"` when the currency is absent or empty. -/
theorem amount_currency_formatting (cfg : EmailConfig) (year : Nat)
    (subscriptionData : SubscriptionConfirmationEmailData) :
    (∀ n, subscriptionData.amount = some n → n ≠ 0 →
      (subscriptionTemplateData cfg year subscriptionData).amount =
        some (toFixed2OfCents n)) ∧
    (subscriptionData.amount = none ∨ subscriptionData.amount = some 0 →
      (subscriptionTemplateData cfg year subscriptionData).amount = none) ∧
    (∀ c, subscriptionData.currency = some c → jsToUpperCase c ≠ "" →
      (subscriptionTemplateData cfg year subscriptionData).currency =
        jsToUpperCase c) ∧
    (subscriptionData.currency = none ∨ subscriptionData.currency = some "" →
      (subscriptionTemplateData cfg year subscriptionData).currency =
        "EUR") ∧
    toFixed2OfCents 999 = "9.99" := by
  refine ⟨?_, ?_, ?_, ?_, by decide⟩
  · intro n hn hnz
    simp [subscriptionTemplateData, hn, hnz]
  · rintro (h | h) <;> simp [subscriptionTemplateData, h]
  · intro c hc hcz
    simp [subscriptionTemplateData, hc, hcz]
  · have hz : jsToUpperCase "" = "" := rfl
    rintro (h | h) <;> simp [subscriptionTemplateData, h, hz]

/-- C7 amended witness: `amount = 999` with currency `"usd"` yields the
merge fields `"9.99"` and `"USD"`. -/
theorem amount_currency_formatting_w :
    (subscriptionTemplateData
      ⟨"smtp.example.com", 587, false, ⟨"user", "pass"⟩,
        ⟨"Penpal AI", "noreply@penpal-ai.com"⟩, ⟨"http://localhost:3000"⟩⟩
      2025
      ⟨"a@b.com", "J", "D", Plan.monthly, SubscriptionStatus.active,
        none, none, some 999, some "usd"⟩).amount = some "9.99" ∧
    (subscriptionTemplateData
      ⟨"smtp.example.com", 587, false, ⟨"user", "pass"⟩,
        ⟨"Penpal AI", "noreply@penpal-ai.com"⟩, ⟨"http://localhost:3000"⟩⟩
      2025
      ⟨"a@b.com", "J", "D", Plan.monthly, SubscriptionStatus.active,
        none, none, some 999, some "usd"⟩).currency = "USD" := by
  have h := amount_currency_formatting
    ⟨"smtp.example.com", 587, false, ⟨"user", "pass"⟩,
      ⟨"Penpal AI", "noreply@penpal-ai.com"⟩, ⟨"http://localhost:3000"⟩⟩
    2025
    ⟨"a@b.com", "J", "D", Plan.monthly, SubscriptionStatus.active,
      none, none, some 999, some "usd"⟩
  exact ⟨(h.1 999 rfl (by decide)).trans (by decide),
    (h.2.2.1 "usd" rfl (by decide)).trans (by decide)⟩

/-- C8 counterexample: the provider string `"constructor"` is not one of
the four mapped keys, yet `providers["constructor"]` reaches the inherited
`Object.prototype.constructor` through the prototype chain — a truthy
function that the `||` keeps — so the code returns that member, not the
input string unchanged. -/
theorem provider_prototype_cex :
    getProviderDisplayName "constructor" =
        ProviderDisplay.protoMember "constructor" ∧
      ProviderDisplay.protoMember "constructor" ≠
        ProviderDisplay.str "constructor" := by
  refine ⟨by decide, by decide⟩

/-- C8 amended: the mapping sends google, facebook, apple and github to
their display names; every other provider string that is not an
`Object.prototype` property name is returned unchanged; a provider string
naming an inherited `Object.prototype` member (constructor, toString,
hasOwnProperty, valueOf, `__proto__`, ...) yields that truthy non-string
member instead of the input. -/
theorem getProviderDisplayName_mapping :
    getProviderDisplayName "google" = ProviderDisplay.str "Google" ∧
    getProviderDisplayName "facebook" = ProviderDisplay.str "Facebook" ∧
    getProviderDisplayName "apple" = ProviderDisplay.str "Apple" ∧
    getProviderDisplayName "github" = ProviderDisplay.str "GitHub" ∧
    (∀ p, p ≠ "google" → p ≠ "facebook" → p ≠ "apple" → p ≠ "github" →
      p ∉ objectPrototypeKeys →
      getProviderDisplayName p = ProviderDisplay.str p) ∧
    (∀ p, p ∈ objectPrototypeKeys →
      getProviderDisplayName p = ProviderDisplay.protoMember p) := by
  refine ⟨by decide, by decide, by decide, by decide, ?_, ?_⟩
  · intro p h1 h2 h3 h4 h5
    simp [getProviderDisplayName, h1, h2, h3, h4, h5]
  · intro p hp
    fin_cases hp <;> decide

/-- C8 amended witness: an unrecognized non-prototype provider string
passes through unchanged, while `"toString"` yields the inherited
prototype member. -/
theorem getProviderDisplayName_mapping_w :
    getProviderDisplayName "discord" = ProviderDisplay.str "discord" ∧
      getProviderDisplayName "toString" =
        ProviderDisplay.protoMember "toString" :=
  ⟨getProviderDisplayName_mapping.2.2.2.2.1 "discord"
      (by decide) (by decide) (by decide) (by decide) (by decide),
    getProviderDisplayName_mapping.2.2.2.2.2 "toString" (by decide)⟩

/-! ## Template Store claims -/

/-- Helper: a `loadTemplates` call whose template name is already cached
returns the cached pair, leaves the cache unchanged, and performs no file
read or compilation. -/
theorem loadTemplates_hit (service : TemplateService) (env : TemplateEnv)
    (cwd templateName : String) (templates : CompiledTemplates)
    (h : service.templateCache.lookup templateName = some templates) :
    loadTemplates service env cwd templateName =
      (Except.ok templates, service, []) := by
  unfold loadTemplates
  rw [h]

/-- Helper: a successful `loadTemplates` leaves the returned pair cached
under its template name. -/
theorem templateCache_lookup_of_load_ok (service : TemplateService)
    (env : TemplateEnv) (cwd templateName : String)
    (templates : CompiledTemplates)
    (h : (loadTemplates service env cwd templateName).1 =
      Except.ok templates) :
    ((loadTemplates service env cwd
        templateName).2.1).templateCache.lookup templateName =
      some templates := by
  unfold loadTemplates at h ⊢
  cases hl : service.templateCache.lookup templateName with
  | some p =>
    rw [hl] at h
    simp at h
    subst h
    simpa using hl
  | none =>
    cases h1 : env.readFile (templateHtmlPath cwd templateName) with
    | error e => simp [hl, h1] at h
    | ok htmlContent =>
      cases h2 : env.readFile (templateTextPath cwd templateName) with
      | error e => simp [hl, h1, h2] at h
      | ok textContent =>
        cases h3 : env.compile htmlContent with
        | error e => simp [hl, h1, h2, h3] at h
        | ok htmlDelegate =>
          cases h4 : env.compile textContent with
          | error e => simp [hl, h1, h2, h3, h4] at h
          | ok textDelegate =>
            simp [hl, h1, h2, h3, h4] at h
            subst h
            simp [hl, h1, h2, h3, h4, List.lookup]

/-- Helper: any later `loadTemplates` call, of any name in any
environment, preserves an existing cache entry (the Map is only ever
added to outside `clearCache`). -/
theorem templateCache_preserved (service : TemplateService)
    (env : TemplateEnv) (cwd name2 : String) (templateName : String)
    (templates : CompiledTemplates)
    (h : service.templateCache.lookup templateName = some templates) :
    ((loadTemplates service env cwd name2).2.1).templateCache.lookup
        templateName = some templates := by
  unfold loadTemplates
  cases hl : service.templateCache.lookup name2 with
  | some p => simpa [hl] using h
  | none =>
    cases h1 : env.readFile (templateHtmlPath cwd name2) with
    | error e => simpa [hl, h1] using h
    | ok htmlContent =>
      cases h2 : env.readFile (templateTextPath cwd name2) with
      | error e => simpa [hl, h1, h2] using h
      | ok textContent =>
        cases h3 : env.compile htmlContent with
        | error e => simpa [hl, h1, h2, h3] using h
        | ok htmlDelegate =>
          cases h4 : env.compile textContent with
          | error e => simpa [hl, h1, h2, h3, h4] using h
          | ok textDelegate =>
            have hne : templateName ≠ name2 := by
              intro he
              subst he
              rw [h] at hl
              cases hl
            have hb : (templateName == name2) = false :=
              beq_eq_false_iff_ne.mpr hne
            simp [hl, h1, h2, h3, h4, List.lookup, hb]
            exact h

/-- Helper: a cache entry survives any sequence of later `loadTemplates`
requests. -/
theorem templateCache_preserved_runLoads (service : TemplateService)
    (reqs : List (TemplateEnv × String × String)) (templateName : String)
    (templates : CompiledTemplates)
    (h : service.templateCache.lookup templateName = some templates) :
    (runLoads service reqs).templateCache.lookup templateName =
      some templates := by
  induction reqs generalizing service with
  | nil => simpa [runLoads] using h
  | cons r rs ih =>
    have hstep : runLoads service (r :: rs) =
        runLoads ((loadTemplates service r.1 r.2.1 r.2.2).2.1) rs := by
      simp [runLoads]
    rw [hstep]
    exact ih _ (templateCache_preserved service r.1 r.2.1 r.2.2
      templateName templates h)

/-- C6: after a first successful `loadTemplates` of a template name, every
subsequent call with the same name — whatever other requests ran in
between, and whatever filesystem and compiler the later call sees —
returns the cached compiled pair with no file read and no compilation
(empty event list) and an unchanged cache; and `clearCache()` empties the
cache so that `getCacheStatus()` reports size 0. -/
theorem templateCache_caching (service : TemplateService)
    (env : TemplateEnv) (cwd templateName : String)
    (templates : CompiledTemplates)
    (h : (loadTemplates service env cwd templateName).1 =
      Except.ok templates) :
    (∀ reqs env2 cwd2,
      loadTemplates
          (runLoads ((loadTemplates service env cwd templateName).2.1) reqs)
          env2 cwd2 templateName =
        (Except.ok templates,
          runLoads ((loadTemplates service env cwd templateName).2.1) reqs,
          [])) ∧
    (∀ st : TemplateService, getCacheStatus (clearCache st) = ⟨0, []⟩) := by
  constructor
  · intro reqs env2 cwd2
    exact loadTemplates_hit _ _ _ _ _
      (templateCache_preserved_runLoads _ _ _ _
        (templateCache_lookup_of_load_ok _ _ _ _ _ h))
  · intro st
    rfl

/-- C6 witness: load `"welcome"` into an empty cache from an environment
whose reads and compiles succeed, then call again with an environment
whose reads and compiles all fail — the cached pair is returned, the cache
is unchanged, and no file is read and nothing is compiled. -/
theorem templateCache_caching_w :
    loadTemplates
        (runLoads
          ((loadTemplates ⟨[]⟩
            ⟨fun _ => Except.ok "source", fun _ => Except.ok id⟩
            "/app" "welcome").2.1) [])
        ⟨fun _ => Except.error "file missing",
          fun _ => Except.error "bad syntax"⟩
        "/app" "welcome" =
      (Except.ok ⟨id, id⟩,
        runLoads
          ((loadTemplates ⟨[]⟩
            ⟨fun _ => Except.ok "source", fun _ => Except.ok id⟩
            "/app" "welcome").2.1) [], []) :=
  (templateCache_caching ⟨[]⟩
    ⟨fun _ => Except.ok "source", fun _ => Except.ok id⟩
    "/app" "welcome" ⟨id, id⟩ rfl).1 []
    ⟨fun _ => Except.error "file missing",
      fun _ => Except.error "bad syntax"⟩ "/app"

end NotifyService
